import Mathlib

/-!
Shallow embedding of the K-Vault mapping-consistency and cache-proxy engine.

Source files embedded:
- `src/cloudreve-adapter/src/db.js` (mapping store: upsertMapping,
  getMappingByPath, touchMapping, markEvicted, markCached, getStaleEntries)
- the sync orchestration module (syncNewUploads, downloadProxy,
  importFromTelegram, sanitizeFileName, buildCloudreveLink)
- `src/cloudreve-adapter/src/cache.js` (runEviction)

Network calls (Cloudreve and Telegram clients) and the clock are modelled as
oracle functions in an `Env` structure; a call that throws or returns a
non-ok response is modelled as the oracle returning `none` / `false`.
Bytes are modelled as `List Nat`, epoch seconds as `Int`.
-/

namespace KVault

/-- JS `a || b` for a possibly-null string `a`: null, undefined and the empty
string are falsy. -/
def jsOrS (a : Option String) (b : String) : String :=
  match a with
  | some s => if s = "" then b else s
  | none => b

/-- JS `a || b` for a possibly-null number `a`: null, undefined and 0 are
falsy. -/
def jsOrN (a : Option Nat) (b : Nat) : Nat :=
  match a with
  | some n => if n = 0 then b else n
  | none => b

/-- JS `s.replace(/\/+$/, "")`: strip any run of trailing slashes. -/
def stripTrailingSlashes (s : String) : String :=
  String.mk ((s.data.reverse.dropWhile (fun c => c = '/')).reverse)

/-- Model of Node `path.posix.dirname`. -/
def posixDirname (s : String) : String :=
  let cs := s.data
  let noTrail := (cs.reverse.dropWhile (fun c => c = '/')).reverse
  if noTrail.isEmpty then
    (if cs.head? = some '/' then "/" else ".")
  else
    let pre := (noTrail.reverse.dropWhile (fun c => c ≠ '/')).reverse
    let pre2 := (pre.reverse.dropWhile (fun c => c = '/')).reverse
    if pre.isEmpty then "."
    else if pre2.isEmpty then "/"
    else String.mk pre2

/-- The parent-directory expression of downloadProxy:
`path.posix.dirname(cloudreve_path) || "/"`. -/
def parentOf (p : String) : String :=
  let d := posixDirname p
  if d = "" then "/" else d

/-- Characters removed by the first replace of sanitizeFileName:
the regex class from the source. -/
def isBannedChar (c : Char) : Bool :=
  c = '/' || c = '\\' || c = ':' || c = '*' || c = '?' || c = '"' ||
  c = '<' || c = '>' || c = '|'

/-- JS regex `\s` character class (whitespace), by code point. -/
def isJsWs (c : Char) : Bool :=
  decide (c.toNat ∈ ([9, 10, 11, 12, 13, 32, 160, 0x1680, 0x2028, 0x2029,
    0x202f, 0x205f, 0x3000, 0xfeff] : List Nat)) ||
  (decide (0x2000 ≤ c.toNat) && decide (c.toNat ≤ 0x200a))

/-- First replace of sanitizeFileName: each path-unsafe character becomes an
underscore. -/
def replaceBanned (c : Char) : Char :=
  if isBannedChar c then '_' else c

/-- Second replace of sanitizeFileName, `.replace(/\s+\x2fg, "_")`: each maximal
run of whitespace becomes a single underscore. The boolean argument records
whether the previous character was part of a whitespace run. -/
def collapseWhitespace : Bool → List Char → List Char
  | _, [] => []
  | prevWs, c :: rest =>
    if isJsWs c then
      if prevWs then collapseWhitespace true rest
      else '_' :: collapseWhitespace true rest
    else c :: collapseWhitespace false rest

/-- `sanitizeFileName` from the sync orchestration module:
`String(name || "file").replace(...).replace(...).slice(0, 200)`. -/
def sanitizeFileName (name : Option String) : String :=
  let base := jsOrS name "file"
  String.mk (List.take 200 (collapseWhitespace false (base.data.map replaceBanned)))

/-- `buildCloudreveLink(baseUrl, filePath)`: returns a Cloudreve share path. -/
def buildCloudreveLink (baseUrl filePath : String) : String :=
  baseUrl ++ "/s" ++ filePath

-- ── Mapping store (db.js) ───────────────────────────────────────────────────

/-- One row of the `file_mappings` table (the autoincrement surrogate id is
omitted; `cloudreve_path` carries the unique index). -/
structure Row where
  cloudreve_file_id : Option String
  cloudreve_path : String
  telegram_file_id : String
  telegram_message_id : Option Int
  file_name : Option String
  file_size : Nat
  mime_type : Option String
  last_accessed : Int
  created_at : Int
  has_local_cache : Nat
deriving DecidableEq

/-- The record argument of upsertMapping; `Option` marks the fields the code
defaults with `??` (null and undefined map to `none`). -/
structure UpsertRecord where
  cloudreveFileId : Option String
  cloudreve_path : String
  telegramFileId : String
  telegramMessageId : Option Int
  fileName : Option String
  fileSize : Option Nat
  mimeType : Option String
  lastAccessed : Option Int
  createdAt : Option Int
  hasLocalCache : Option Nat
deriving DecidableEq

/-- The row produced from an upsert record after the `??` defaults of the
`stmt.run` argument object are applied. -/
def storedRow (rec : UpsertRecord) (now : Int) : Row :=
  { cloudreve_file_id := rec.cloudreveFileId,
    cloudreve_path := rec.cloudreve_path,
    telegram_file_id := rec.telegramFileId,
    telegram_message_id := rec.telegramMessageId,
    file_name := rec.fileName,
    file_size := rec.fileSize.getD 0,
    mime_type := rec.mimeType,
    last_accessed := rec.lastAccessed.getD 0,
    created_at := rec.createdAt.getD now,
    has_local_cache := rec.hasLocalCache.getD 1 }

/-- A SQL `UPDATE ... WHERE cloudreve_path = p`, applying `f` to every row
whose path is `p`. -/
def updateWhere (p : String) (f : Row → Row) (dbs : List Row) : List Row :=
  dbs.map (fun r => if r.cloudreve_path == p then f r else r)

/-- `getMappingByPath`: point lookup by path, `none` for absence. -/
def getMappingByPath (dbs : List Row) (p : String) : Option Row :=
  dbs.find? (fun r => r.cloudreve_path == p)

/-- `upsertMapping`: `INSERT ... ON CONFLICT(cloudreve_path) DO UPDATE SET`
every column except `created_at`. -/
def upsertMapping (dbs : List Row) (rec : UpsertRecord) (now : Int) : List Row :=
  let stored := storedRow rec now
  match getMappingByPath dbs rec.cloudreve_path with
  | some _ =>
    updateWhere rec.cloudreve_path (fun old => { stored with created_at := old.created_at }) dbs
  | none => dbs ++ [stored]

/-- `touchMapping`: set `last_accessed` to the current time where the path
matches. -/
def touchMapping (dbs : List Row) (p : String) (now : Int) : List Row :=
  updateWhere p (fun r => { r with last_accessed := now }) dbs

/-- `markEvicted`: set `has_local_cache = 0` where the path matches. -/
def markEvicted (dbs : List Row) (p : String) : List Row :=
  updateWhere p (fun r => { r with has_local_cache := 0 }) dbs

/-- `markCached`: set `has_local_cache = 1` and refresh `last_accessed` where
the path matches. -/
def markCached (dbs : List Row) (p : String) (now : Int) : List Row :=
  updateWhere p (fun r => { r with has_local_cache := 1, last_accessed := now }) dbs

/-- `getStaleEntries(thresholdSeconds)`: rows with a local cache copy whose
`last_accessed` is positive and before `now - thresholdSeconds`. -/
def getStaleEntries (dbs : List Row) (thresholdSeconds now : Int) : List Row :=
  let cutoff := now - thresholdSeconds
  dbs.filter (fun r =>
    r.has_local_cache == 1 && decide (r.last_accessed < cutoff) &&
    decide (0 < r.last_accessed))

/-- `getEvictedEntries`: rows with `has_local_cache = 0`. -/
def getEvictedEntries (dbs : List Row) : List Row :=
  dbs.filter (fun r => r.has_local_cache == 0)

-- ── External collaborators and configuration ────────────────────────────────

/-- One entry of a Cloudreve directory listing. `size` is `Option` because the
code guards it with `file.size || buffer.length`. -/
structure FileObj where
  name : String
  type : String
  fileId : String
  size : Option Nat
deriving DecidableEq

/-- Argument object of `cloudreve.uploadFile`. -/
structure UploadReq where
  filePath : String
  fileName : String
  fileSize : Nat
  mimeType : String
  data : List Nat
deriving DecidableEq

/-- Argument object of `telegram.uploadFile`. -/
structure TgUploadReq where
  data : List Nat
  fileName : String
  mimeType : String
  fileSize : Nat
  caption : String
deriving DecidableEq

/-- Deterministic model of the configuration, the clock and the two store
clients. A `none` (or `false`) result models a thrown error or a non-ok
response. `cloudreveDownload` takes an `Option String` because the stored
`cloudreve_file_id` column is nullable. -/
structure Env where
  now : Int
  inboxPath : String
  baseUrl : String
  cacheIdleDays : Int
  ensureDirectory : String → Bool
  listDirectory : String → Option (List FileObj)
  cloudreveDownload : Option String → Option (List Nat × Option String)
  cloudreveUpload : UploadReq → Option String
  cloudreveDelete : String → Bool
  telegramUpload : TgUploadReq → Option (String × Int)
  telegramDownload : String → Option (List Nat × String)

-- ── Download proxy ──────────────────────────────────────────────────────────

/-- The value downloadProxy resolves with. In the cache-hit branch the code
returns `mapping.file_name` unchanged, which may be null, hence `Option`. -/
structure DLResult where
  buffer : List Nat
  fileName : Option String
  mimeType : String
deriving DecidableEq

/-- `downloadProxy(cloudreve_path)`: look up the mapping (404 when absent),
touch it, serve from Cloudreve when a local cache copy exists and the fetch
succeeds, otherwise restore from Telegram, re-upload to Cloudreve and upsert
on success or markEvicted on upload failure. Returns the result together with
the mapping store after the call. -/
def downloadProxy (env : Env) (dbs : List Row) (p : String) :
    Except String (DLResult × List Row) :=
  match getMappingByPath dbs p with
  | none => .error "notFound"
  | some mapping =>
    let dbs1 := touchMapping dbs p env.now
    let restore : Except String (DLResult × List Row) :=
      match env.telegramDownload mapping.telegram_file_id with
      | none => .error "telegramDownloadFailed"
      | some (buf, tgMime) =>
        let mimeType := jsOrS mapping.mime_type tgMime
        let fileName := jsOrS mapping.file_name "file"
        if env.ensureDirectory (parentOf p) then
          match env.cloudreveUpload
              { filePath := p, fileName := fileName, fileSize := buf.length,
                mimeType := mimeType, data := buf } with
          | some newId =>
            let dbs2 := upsertMapping dbs1
              { cloudreveFileId := some newId, cloudreve_path := p,
                telegramFileId := mapping.telegram_file_id,
                telegramMessageId := mapping.telegram_message_id,
                fileName := some fileName, fileSize := some buf.length,
                mimeType := some mimeType, lastAccessed := some env.now,
                createdAt := some mapping.created_at, hasLocalCache := some 1 }
              env.now
            .ok ({ buffer := buf, fileName := some fileName, mimeType := mimeType }, dbs2)
          | none =>
            .ok ({ buffer := buf, fileName := some fileName, mimeType := mimeType },
                 markEvicted dbs1 p)
        else .error "ensureDirectoryFailed"
    if mapping.has_local_cache != 0 then
      match env.cloudreveDownload mapping.cloudreve_file_id with
      | some (buf, hdr) =>
        .ok ({ buffer := buf, fileName := mapping.file_name,
               mimeType := jsOrS hdr (jsOrS mapping.mime_type "application/octet-stream") },
             dbs1)
      | none => restore
    else restore

-- ── Sync engine ─────────────────────────────────────────────────────────────

/-- Aggregate result of a sync run. `tgUploads` instruments the number of
`telegram.uploadFile` calls made (attempted network uploads), which the source
does not count but the spec reasons about. -/
structure SyncResult where
  synced : Nat
  errors : Nat
  tgUploads : Nat
deriving DecidableEq

/-- Loop state of the per-file loop of syncNewUploads. -/
structure SyncState where
  db : List Row
  synced : Nat
  errors : Nat
  tgUploads : Nat
deriving DecidableEq

/-- The full Cloudreve path of a listed file inside the target directory. -/
def syncFilePath (targetDir : String) (file : FileObj) : String :=
  stripTrailingSlashes targetDir ++ "/" ++ file.name

/-- The argument object of the `telegram.uploadFile` call syncNewUploads
makes for one file. -/
def syncUploadReq (targetDir : String) (file : FileObj) (buf : List Nat)
    (hdr : Option String) : TgUploadReq :=
  { data := buf, fileName := file.name,
    mimeType := jsOrS hdr "application/octet-stream",
    fileSize := buf.length,
    caption := "Synced from Cloudreve: " ++ syncFilePath targetDir file }

/-- The upsert record syncNewUploads writes for one successfully backed-up
file. -/
def syncUpsertRecord (env : Env) (targetDir : String) (file : FileObj)
    (buf : List Nat) (hdr : Option String) (tgId : String) (msgId : Int) :
    UpsertRecord :=
  { cloudreveFileId := some file.fileId,
    cloudreve_path := syncFilePath targetDir file,
    telegramFileId := tgId, telegramMessageId := some msgId,
    fileName := some file.name,
    fileSize := some (jsOrN file.size buf.length),
    mimeType := some (jsOrS hdr "application/octet-stream"),
    lastAccessed := some env.now,
    createdAt := some env.now, hasLocalCache := some 1 }

/-- One iteration of the per-file loop of syncNewUploads: skip when a mapping
exists, otherwise download from Cloudreve, upload to Telegram and upsert;
any failure counts one error and the loop continues. -/
def syncStep (env : Env) (targetDir : String) (st : SyncState) (file : FileObj) :
    SyncState :=
  match getMappingByPath st.db (syncFilePath targetDir file) with
  | some _ => st
  | none =>
    match env.cloudreveDownload (some file.fileId) with
    | none => { st with errors := st.errors + 1 }
    | some (buf, hdr) =>
      match env.telegramUpload (syncUploadReq targetDir file buf hdr) with
      | none => { st with errors := st.errors + 1, tgUploads := st.tgUploads + 1 }
      | some (tgId, msgId) =>
        { db := upsertMapping st.db
            (syncUpsertRecord env targetDir file buf hdr tgId msgId) env.now,
          synced := st.synced + 1, errors := st.errors,
          tgUploads := st.tgUploads + 1 }

/-- A file whose processing fails in the per-file loop under a given
environment: either the Cloudreve download fails, or it succeeds and the
Telegram upload of the downloaded bytes fails. Deterministic in the
environment, so a file that failed once fails again on a retry. -/
def syncFails (env : Env) (targetDir : String) (file : FileObj) : Prop :=
  match env.cloudreveDownload (some file.fileId) with
  | none => True
  | some (buf, hdr) => env.telegramUpload (syncUploadReq targetDir file buf hdr) = none

/-- `syncNewUploads(dirPath)`: ensure the directory, list it, keep file-type
entries, and run the per-file loop. Returns aggregate counts and the mapping
store after the run. -/
def syncNewUploads (env : Env) (dirPath : Option String) (dbs : List Row) :
    Except String (SyncResult × List Row) :=
  let targetDir := jsOrS dirPath env.inboxPath
  if env.ensureDirectory targetDir then
    let files := ((env.listDirectory targetDir).getD []).filter (fun o => o.type == "file")
    let fin := files.foldl (syncStep env targetDir)
      { db := dbs, synced := 0, errors := 0, tgUploads := 0 }
    .ok ({ synced := fin.synced, errors := fin.errors, tgUploads := fin.tgUploads }, fin.db)
  else .error "ensureDirectoryFailed"

-- ── Import engine ───────────────────────────────────────────────────────────

/-- Argument object of importFromTelegram. -/
structure ImportArgs where
  telegramFileId : String
  telegramMessageId : Option Int
  fileName : Option String
  mimeType : Option String
  fileSize : Option Nat
deriving DecidableEq

/-- The value importFromTelegram resolves with. -/
structure ImportResult where
  cloudreve_path : String
  tgFileId : String
  directLink : String
deriving DecidableEq

/-- Instrumentation of the network calls importFromTelegram makes, used to
state the no-network short-circuit property. -/
structure ImportEffects where
  tgDownloads : Nat
  crUploads : Nat
  ensures : Nat
deriving DecidableEq

/-- The destination path importFromTelegram computes under the inbox root. -/
def importDestPath (inboxPath : String) (fileName : Option String) : String :=
  stripTrailingSlashes inboxPath ++ "/" ++ sanitizeFileName fileName

/-- `importFromTelegram`: short-circuit when a mapping already exists at the
destination path, otherwise ensure the inbox directory, download from
Telegram, upload to Cloudreve and upsert a mapping with a local cache copy. -/
def importFromTelegram (env : Env) (dbs : List Row) (a : ImportArgs) :
    Except String (ImportResult × List Row × ImportEffects) :=
  let safeName := sanitizeFileName a.fileName
  let destPath := importDestPath env.inboxPath a.fileName
  match getMappingByPath dbs destPath with
  | some existing =>
    .ok ({ cloudreve_path := destPath, tgFileId := existing.telegram_file_id,
           directLink := buildCloudreveLink env.baseUrl destPath }, dbs,
         { tgDownloads := 0, crUploads := 0, ensures := 0 })
  | none =>
    if env.ensureDirectory env.inboxPath then
      match env.telegramDownload a.telegramFileId with
      | none => .error "telegramDownloadFailed"
      | some (buf, detectedMime) =>
        let finalMime := jsOrS a.mimeType detectedMime
        match env.cloudreveUpload
            { filePath := destPath, fileName := safeName,
              fileSize := buf.length, mimeType := finalMime, data := buf } with
        | none => .error "cloudreveUploadFailed"
        | some cid =>
          let dbs1 := upsertMapping dbs
            { cloudreveFileId := some cid, cloudreve_path := destPath,
              telegramFileId := a.telegramFileId,
              telegramMessageId := a.telegramMessageId,
              fileName := some safeName,
              fileSize := some (jsOrN a.fileSize buf.length),
              mimeType := some finalMime, lastAccessed := some env.now,
              createdAt := some env.now, hasLocalCache := some 1 } env.now
          .ok ({ cloudreve_path := destPath, tgFileId := a.telegramFileId,
                 directLink := buildCloudreveLink env.baseUrl destPath }, dbs1,
               { tgDownloads := 1, crUploads := 1, ensures := 1 })
    else .error "ensureDirectoryFailed"

-- ── Eviction scheduler ──────────────────────────────────────────────────────

/-- Aggregate result of one eviction pass. -/
structure EvictResult where
  evicted : Nat
  errors : Nat
deriving DecidableEq

/-- One iteration of the eviction loop: delete the Cloudreve copy; on success
markEvicted and count, on failure count an error and keep the store
unchanged. -/
def evictStep (env : Env) (acc : EvictResult × List Row) (e : Row) :
    EvictResult × List Row :=
  if env.cloudreveDelete e.cloudreve_path then
    ({ acc.1 with evicted := acc.1.evicted + 1 }, markEvicted acc.2 e.cloudreve_path)
  else
    ({ acc.1 with errors := acc.1.errors + 1 }, acc.2)

/-- `runEviction`: query the stale entries once, then process each entry
independently; an empty stale list returns zero counts. Total by construction:
a per-item failure never aborts the pass. -/
def runEviction (env : Env) (dbs : List Row) : EvictResult × List Row :=
  let idleSecs := env.cacheIdleDays * 24 * 60 * 60
  let stale := getStaleEntries dbs idleSecs env.now
  if stale.isEmpty then ({ evicted := 0, errors := 0 }, dbs)
  else stale.foldl (evictStep env) ({ evicted := 0, errors := 0 }, dbs)

-- ── Definitions used by the statements ──────────────────────────────────────

/-- The unique index on `cloudreve_path`: no two rows share a path. -/
def pathsUnique (dbs : List Row) : Prop :=
  dbs.Pairwise (fun a b => a.cloudreve_path ≠ b.cloudreve_path)

/-- Claim C3 helper: the created-at column that survives an upsert chain. -/
def survivingCreatedAt (dbs : List Row) (p : String) (r1 : UpsertRecord) (n1 : Int) : Int :=
  match getMappingByPath dbs p with
  | some old => old.created_at
  | none => (storedRow r1 n1).created_at

-- ── Concrete fixtures for witnesses and counterexamples ─────────────────────

/-- First upsert record of the claim C3 witness. -/
def recW1 : UpsertRecord :=
  { cloudreveFileId := some "cf1", cloudreve_path := "/inbox/a",
    telegramFileId := "tg1", telegramMessageId := some 7,
    fileName := some "a", fileSize := some 3, mimeType := some "text/plain",
    lastAccessed := some 10, createdAt := some 10, hasLocalCache := some 1 }

/-- Second upsert record of the claim C3 witness; every field differs from
`recW1` except the path. -/
def recW2 : UpsertRecord :=
  { cloudreveFileId := some "cf2", cloudreve_path := "/inbox/a",
    telegramFileId := "tg2", telegramMessageId := some 8,
    fileName := some "a2", fileSize := some 4, mimeType := some "text/html",
    lastAccessed := some 20, createdAt := some 20, hasLocalCache := some 0 }

/-- Stored mapping of the claim C1 witness: evicted (no local cache copy). -/
def rowC1 : Row :=
  { cloudreve_file_id := some "cf-old", cloudreve_path := "/inbox/a.txt",
    telegram_file_id := "tg1", telegram_message_id := some 5,
    file_name := some "a.txt", file_size := 2, mime_type := some "text/plain",
    last_accessed := 50, created_at := 40, has_local_cache := 0 }

/-- Environment of the claim C1 witness: the Telegram download and the
Cloudreve upload succeed. -/
def envC1 : Env :=
  { now := 100, inboxPath := "/inbox", baseUrl := "https://cloud.example",
    cacheIdleDays := 1,
    ensureDirectory := fun _ => true,
    listDirectory := fun _ => none,
    cloudreveDownload := fun _ => none,
    cloudreveUpload := fun _ => some "cf-new",
    cloudreveDelete := fun _ => false,
    telegramUpload := fun _ => none,
    telegramDownload := fun fid => if fid = "tg1" then some ([1, 2], "text/plain") else none }

/-- Stored mapping of the claim C2 witness: flagged as cached, but the
Cloudreve fetch will fail, forcing the restore path. -/
def rowC2 : Row :=
  { cloudreve_file_id := some "cf-old", cloudreve_path := "/inbox/b.txt",
    telegram_file_id := "tg2", telegram_message_id := some 6,
    file_name := some "b.txt", file_size := 1, mime_type := none,
    last_accessed := 50, created_at := 40, has_local_cache := 1 }

/-- Environment of the claim C2 witness: every Cloudreve download and upload
fails; the Telegram download succeeds. -/
def envC2 : Env :=
  { now := 100, inboxPath := "/inbox", baseUrl := "https://cloud.example",
    cacheIdleDays := 1,
    ensureDirectory := fun _ => true,
    listDirectory := fun _ => none,
    cloudreveDownload := fun _ => none,
    cloudreveUpload := fun _ => none,
    cloudreveDelete := fun _ => false,
    telegramUpload := fun _ => none,
    telegramDownload := fun fid => if fid = "tg2" then some ([9], "text/html") else none }

/-- Stored mapping of the claim C4 fixture: cached, with stored MIME
metadata present. -/
def rowC4 : Row :=
  { cloudreve_file_id := some "cf-c", cloudreve_path := "/inbox/c.bin",
    telegram_file_id := "tg4", telegram_message_id := some 9,
    file_name := some "c.bin", file_size := 1, mime_type := some "text/plain",
    last_accessed := 50, created_at := 40, has_local_cache := 1 }

/-- Environment of the claim C4 fixture: the cache-hit fetch succeeds and the
live response carries a content-type header that differs from the stored
metadata. -/
def envC4 : Env :=
  { now := 100, inboxPath := "/inbox", baseUrl := "https://cloud.example",
    cacheIdleDays := 1,
    ensureDirectory := fun _ => true,
    listDirectory := fun _ => none,
    cloudreveDownload := fun _ => some ([3], some "application/json"),
    cloudreveUpload := fun _ => none,
    cloudreveDelete := fun _ => false,
    telegramUpload := fun _ => none,
    telegramDownload := fun _ => none }

/-- Claim C9 witness fixture: a stale row whose delete will succeed. -/
def rowC9a : Row :=
  { cloudreve_file_id := some "cf-a", cloudreve_path := "/x/a",
    telegram_file_id := "tg-a", telegram_message_id := some 1,
    file_name := some "a", file_size := 1, mime_type := some "text/plain",
    last_accessed := 10, created_at := 1, has_local_cache := 1 }

/-- Claim C9 witness fixture: a stale row whose delete will fail. -/
def rowC9b : Row :=
  { cloudreve_file_id := some "cf-b", cloudreve_path := "/x/b",
    telegram_file_id := "tg-b", telegram_message_id := some 2,
    file_name := some "b", file_size := 1, mime_type := some "text/plain",
    last_accessed := 10, created_at := 1, has_local_cache := 1 }

/-- Claim C9 witness store: two stale rows. -/
def dbC9 : List Row := [rowC9a, rowC9b]

/-- Claim C9 witness environment: the delete succeeds only on the first
path. -/
def envC9 : Env :=
  { now := 1000000, inboxPath := "/x", baseUrl := "https://cloud.example",
    cacheIdleDays := 1,
    ensureDirectory := fun _ => true,
    listDirectory := fun _ => none,
    cloudreveDownload := fun _ => none,
    cloudreveUpload := fun _ => none,
    cloudreveDelete := fun p => p == "/x/a",
    telegramUpload := fun _ => none,
    telegramDownload := fun _ => none }

/-- Claim C6 fixture: the single file listed in the synced directory. -/
def fileC6 : FileObj :=
  { name := "a.txt", type := "file", fileId := "cf6", size := some 2 }

/-- Claim C6 fixture environment: one file in the inbox, whose Cloudreve
download and Telegram upload both succeed, at time 100. -/
def envC6 : Env :=
  { now := 100, inboxPath := "/inbox", baseUrl := "https://cloud.example",
    cacheIdleDays := 1,
    ensureDirectory := fun _ => true,
    listDirectory := fun d => if d = "/inbox" then some [fileC6] else none,
    cloudreveDownload := fun fid =>
      if fid = some "cf6" then some ([7, 8], some "text/plain") else none,
    cloudreveUpload := fun _ => none,
    cloudreveDelete := fun _ => false,
    telegramUpload := fun _ => some ("tg6", 12),
    telegramDownload := fun _ => none }

/-- The mapping the claim C6 fixture sync creates. -/
def rowC6 : Row :=
  { cloudreve_file_id := some "cf6", cloudreve_path := "/inbox/a.txt",
    telegram_file_id := "tg6", telegram_message_id := some 12,
    file_name := some "a.txt", file_size := 2, mime_type := some "text/plain",
    last_accessed := 100, created_at := 100, has_local_cache := 1 }

/-- Claim C8 witness arguments. -/
def argsC8 : ImportArgs :=
  { telegramFileId := "tg-i", telegramMessageId := some 11,
    fileName := some "pic.png", mimeType := some "image/png", fileSize := some 2 }

/-- Claim C8 witness environment: the Telegram download and the Cloudreve
upload succeed. -/
def envC8 : Env :=
  { now := 100, inboxPath := "/inbox", baseUrl := "https://cloud.example",
    cacheIdleDays := 1,
    ensureDirectory := fun _ => true,
    listDirectory := fun _ => none,
    cloudreveDownload := fun _ => none,
    cloudreveUpload := fun _ => some "cf-i",
    cloudreveDelete := fun _ => false,
    telegramUpload := fun _ => none,
    telegramDownload := fun fid => if fid = "tg-i" then some ([4, 5], "image/png") else none }

/-- The value the claim C8 witness import resolves with. -/
def resC8 : ImportResult :=
  { cloudreve_path := "/inbox/pic.png", tgFileId := "tg-i",
    directLink := "https://cloud.example/s/inbox/pic.png" }

/-- The mapping store after the first claim C8 witness import. -/
def dbC8after : List Row :=
  [{ cloudreve_file_id := some "cf-i", cloudreve_path := "/inbox/pic.png",
     telegram_file_id := "tg-i", telegram_message_id := some 11,
     file_name := some "pic.png", file_size := 2, mime_type := some "image/png",
     last_accessed := 100, created_at := 100, has_local_cache := 1 }]

-- ── Mapping store lemmas ────────────────────────────────────────────────────

theorem comp_pred_update (p q : String) (f : Row → Row)
    (hf : ∀ r, r.cloudreve_path = p → (f r).cloudreve_path = p) :
    ((fun r => r.cloudreve_path == q) ∘
      (fun r => if r.cloudreve_path == p then f r else r)) =
      fun r => r.cloudreve_path == q := by
  funext r
  by_cases h : (r.cloudreve_path == p) = true
  · have hr : r.cloudreve_path = p := by simpa using h
    have hfr := hf r hr
    simp [Function.comp, h, hfr, hr]
  · simp [Function.comp, h]

theorem getMappingByPath_updateWhere_self (p : String) (f : Row → Row) (dbs : List Row)
    (hf : ∀ r, r.cloudreve_path = p → (f r).cloudreve_path = p) :
    getMappingByPath (updateWhere p f dbs) p = (getMappingByPath dbs p).map f := by
  unfold getMappingByPath updateWhere
  rw [List.find?_map, comp_pred_update p p f hf]
  rcases hfind : dbs.find? (fun r => r.cloudreve_path == p) with _ | m
  · rw [hfind]
    rfl
  · rw [hfind]
    have hm := List.find?_some hfind
    have hmp : m.cloudreve_path = p := by simpa using hm
    simp [hmp]

theorem getMappingByPath_updateWhere_ne (p q : String) (f : Row → Row) (dbs : List Row)
    (hf : ∀ r, r.cloudreve_path = p → (f r).cloudreve_path = p) (hq : q ≠ p) :
    getMappingByPath (updateWhere p f dbs) q = getMappingByPath dbs q := by
  unfold getMappingByPath updateWhere
  rw [List.find?_map, comp_pred_update p q f hf]
  rcases hfind : dbs.find? (fun r => r.cloudreve_path == q) with _ | m
  · rw [hfind]
    rfl
  · rw [hfind]
    have hm := List.find?_some hfind
    have hmq : m.cloudreve_path = q := by simpa using hm
    have hne : ¬ m.cloudreve_path = p := by
      rw [hmq]
      exact hq
    simp [hne]

theorem getMappingByPath_append_single (dbs : List Row) (x : Row) (q : String)
    (h : getMappingByPath dbs q = none) :
    getMappingByPath (dbs ++ [x]) q =
      if x.cloudreve_path == q then some x else none := by
  unfold getMappingByPath at *
  rw [List.find?_append, h]
  cases hx : (x.cloudreve_path == q) <;> simp [List.find?, hx]

theorem countP_updateWhere (p q : String) (f : Row → Row) (dbs : List Row)
    (hf : ∀ r, r.cloudreve_path = p → (f r).cloudreve_path = p) :
    (updateWhere p f dbs).countP (fun r => r.cloudreve_path == q) =
      dbs.countP (fun r => r.cloudreve_path == q) := by
  unfold updateWhere
  rw [List.countP_map, comp_pred_update p q f hf]

theorem countP_le_one_of_pathsUnique (dbs : List Row) (p : String)
    (hu : pathsUnique dbs) :
    dbs.countP (fun r => r.cloudreve_path == p) ≤ 1 := by
  induction dbs with
  | nil => simp
  | cons a l ih =>
    have hpw := (List.pairwise_cons.mp hu)
    rw [List.countP_cons]
    by_cases ha : (a.cloudreve_path == p) = true
    · have hap : a.cloudreve_path = p := by simpa using ha
      have hzero : l.countP (fun r => r.cloudreve_path == p) = 0 := by
        rw [List.countP_eq_zero]
        intro b hb
        have hne := hpw.1 b hb
        simp only [beq_iff_eq]
        rw [← hap]
        exact fun hbp => hne hbp.symm
      rw [hzero]
      simp [ha]
    · have ha' : (a.cloudreve_path == p) = false := by
        simpa using ha
      rw [ha']
      simpa using ih hpw.2

theorem upsertMapping_eq_append (dbs : List Row) (rec : UpsertRecord) (now : Int)
    (h : getMappingByPath dbs rec.cloudreve_path = none) :
    upsertMapping dbs rec now = dbs ++ [storedRow rec now] := by
  unfold upsertMapping
  rw [h]

theorem upsertMapping_eq_update (dbs : List Row) (rec : UpsertRecord) (now : Int)
    (old : Row) (h : getMappingByPath dbs rec.cloudreve_path = some old) :
    upsertMapping dbs rec now =
      updateWhere rec.cloudreve_path
        (fun o => { storedRow rec now with created_at := o.created_at }) dbs := by
  unfold upsertMapping
  rw [h]

/-- Claim C3: two upsert calls keyed to the same path leave exactly one row at
that path; every field of that row carries the second call values except
`created_at`, which keeps the value fixed by the earliest insert for the
path (the pre-existing row when the path was already present, otherwise the
first of the two calls). -/
theorem upsertMapping_twice (dbs : List Row) (r1 r2 : UpsertRecord) (n1 n2 : Int)
    (p : String) (hu : pathsUnique dbs)
    (h1 : r1.cloudreve_path = p) (h2 : r2.cloudreve_path = p) :
    ((upsertMapping (upsertMapping dbs r1 n1) r2 n2).countP
        (fun r => r.cloudreve_path == p) = 1) ∧
    getMappingByPath (upsertMapping (upsertMapping dbs r1 n1) r2 n2) p =
      some { storedRow r2 n2 with created_at := survivingCreatedAt dbs p r1 n1 } := by
  have hf1 : ∀ r : Row, r.cloudreve_path = p →
      ({ storedRow r1 n1 with created_at := r.created_at } : Row).cloudreve_path = p := by
    intro r _
    simpa [storedRow] using h1
  have hf2 : ∀ r : Row, r.cloudreve_path = p →
      ({ storedRow r2 n2 with created_at := r.created_at } : Row).cloudreve_path = p := by
    intro r _
    simpa [storedRow] using h2
  rcases hex : getMappingByPath dbs p with _ | old
  · -- the path was absent: the first call inserts, the second updates
    have hd1 : upsertMapping dbs r1 n1 = dbs ++ [storedRow r1 n1] :=
      upsertMapping_eq_append dbs r1 n1 (by rw [h1]; exact hex)
    have hfind1 : getMappingByPath (upsertMapping dbs r1 n1) p = some (storedRow r1 n1) := by
      rw [hd1, getMappingByPath_append_single dbs _ p hex]
      simp [storedRow, h1]
    have hd2 : upsertMapping (upsertMapping dbs r1 n1) r2 n2 =
        updateWhere p (fun o => { storedRow r2 n2 with created_at := o.created_at })
          (upsertMapping dbs r1 n1) := by
      have heq := upsertMapping_eq_update (upsertMapping dbs r1 n1) r2 n2
        (storedRow r1 n1) (by rw [h2]; exact hfind1)
      rw [h2] at heq
      exact heq
    constructor
    · rw [hd2, countP_updateWhere p p _ _ hf2, hd1, List.countP_append]
      have hzero : dbs.countP (fun r => r.cloudreve_path == p) = 0 := by
        rw [List.countP_eq_zero]
        intro b hb hbp
        have hbp' : b.cloudreve_path = p := by simpa using hbp
        have : getMappingByPath dbs p ≠ none := by
          unfold getMappingByPath
          rw [Ne, List.find?_eq_none]
          intro hall
          exact hall b hb (by simpa using hbp')
        exact this hex
      rw [hzero]
      simp [List.countP, List.countP.go, storedRow, h1]
    · rw [hd2, getMappingByPath_updateWhere_self p _ _ hf2, hfind1]
      simp [survivingCreatedAt, hex, storedRow]
  · -- the path was present: both calls update in place
    have hd1 : upsertMapping dbs r1 n1 =
        updateWhere p (fun o => { storedRow r1 n1 with created_at := o.created_at }) dbs := by
      have heq := upsertMapping_eq_update dbs r1 n1 old (by rw [h1]; exact hex)
      rw [h1] at heq
      exact heq
    have hfind1 : getMappingByPath (upsertMapping dbs r1 n1) p =
        some { storedRow r1 n1 with created_at := old.created_at } := by
      rw [hd1, getMappingByPath_updateWhere_self p _ _ hf1, hex]
      rfl
    have hd2 : upsertMapping (upsertMapping dbs r1 n1) r2 n2 =
        updateWhere p (fun o => { storedRow r2 n2 with created_at := o.created_at })
          (upsertMapping dbs r1 n1) := by
      have heq := upsertMapping_eq_update (upsertMapping dbs r1 n1) r2 n2
        { storedRow r1 n1 with created_at := old.created_at } (by rw [h2]; exact hfind1)
      rw [h2] at heq
      exact heq
    constructor
    · rw [hd2, countP_updateWhere p p _ _ hf2, hd1, countP_updateWhere p p _ _ hf1]
      have hle := countP_le_one_of_pathsUnique dbs p hu
      have hmem := List.mem_of_find?_eq_some hex
      have hpred := List.find?_some hex
      have hpos : 0 < dbs.countP (fun r => r.cloudreve_path == p) :=
        List.countP_pos_iff.mpr ⟨old, hmem, hpred⟩
      omega
    · rw [hd2, getMappingByPath_updateWhere_self p _ _ hf2, hfind1]
      simp [survivingCreatedAt, hex]

/-- Claim C3 witness: two concrete upserts on an empty store. -/
theorem upsertMapping_twice_witness :
    ((upsertMapping (upsertMapping [] recW1 10) recW2 20).countP
        (fun r => r.cloudreve_path == "/inbox/a") = 1) ∧
    getMappingByPath (upsertMapping (upsertMapping [] recW1 10) recW2 20) "/inbox/a" =
      some { storedRow recW2 20 with
             created_at := survivingCreatedAt [] "/inbox/a" recW1 10 } :=
  upsertMapping_twice [] recW1 recW2 10 20 "/inbox/a" (by simp [pathsUnique]) rfl rfl

/-- Claim C5: `getStaleEntries` returns exactly the rows that have a local
cache copy, a positive `last_accessed`, and were last accessed before
`now - T`. -/
theorem getStaleEntries_mem (dbs : List Row) (T now : Int) (r : Row) :
    r ∈ getStaleEntries dbs T now ↔
      r ∈ dbs ∧ r.has_local_cache = 1 ∧ r.last_accessed < now - T ∧
        0 < r.last_accessed := by
  simp [getStaleEntries, List.mem_filter, and_assoc]

/-- Claim C5 witness: a concrete store where only the stale row is returned. -/
theorem getStaleEntries_mem_witness :
    ({ cloudreve_file_id := some "cf1", cloudreve_path := "/inbox/a",
       telegram_file_id := "tg1", telegram_message_id := some 7,
       file_name := some "a", file_size := 3, mime_type := some "text/plain",
       last_accessed := 5, created_at := 1, has_local_cache := 1 } : Row) ∈
      getStaleEntries
        [{ cloudreve_file_id := some "cf1", cloudreve_path := "/inbox/a",
           telegram_file_id := "tg1", telegram_message_id := some 7,
           file_name := some "a", file_size := 3, mime_type := some "text/plain",
           last_accessed := 5, created_at := 1, has_local_cache := 1 }] 10 100 :=
  (getStaleEntries_mem _ 10 100 _).mpr ⟨by decide, by decide, by decide, by decide⟩

-- ── Sanitizer lemmas (claim C10) ────────────────────────────────────────────

theorem collapseWhitespace_ne_nil (l : List Char) (h : l ≠ []) :
    collapseWhitespace false l ≠ [] := by
  cases l with
  | nil => exact absurd rfl h
  | cons c rest =>
    unfold collapseWhitespace
    by_cases hc : isJsWs c = true
    · simp [hc]
    · simp [hc]

theorem mem_collapseWhitespace (b : Bool) (l : List Char) (c : Char)
    (h : c ∈ collapseWhitespace b l) : c = '_' ∨ c ∈ l := by
  induction l generalizing b with
  | nil => simp [collapseWhitespace] at h
  | cons a rest ih =>
    unfold collapseWhitespace at h
    by_cases ha : isJsWs a = true
    · rw [if_pos ha] at h
      cases b with
      | true =>
        simp only [if_pos rfl] at h
        rcases ih true h with h1 | h1
        · exact Or.inl h1
        · exact Or.inr (List.mem_cons_of_mem a h1)
      | false =>
        simp only [Bool.false_eq_true, if_neg] at h
        rcases List.mem_cons.mp h with h1 | h1
        · exact Or.inl h1
        · rcases ih true h1 with h2 | h2
          · exact Or.inl h2
          · exact Or.inr (List.mem_cons_of_mem a h2)
    · rw [if_neg ha] at h
      rcases List.mem_cons.mp h with h1 | h1
      · exact Or.inr (h1 ▸ List.mem_cons_self a rest)
      · rcases ih false h1 with h2 | h2
        · exact Or.inl h2
        · exact Or.inr (List.mem_cons_of_mem a h2)

theorem collapseWhitespace_no_ws (b : Bool) (l : List Char) :
    ∀ c ∈ collapseWhitespace b l, isJsWs c = false := by
  induction l generalizing b with
  | nil => simp [collapseWhitespace]
  | cons a rest ih =>
    intro c hc
    unfold collapseWhitespace at hc
    by_cases ha : isJsWs a = true
    · rw [if_pos ha] at hc
      cases b with
      | true =>
        simp only [if_pos rfl] at hc
        exact ih true c hc
      | false =>
        simp only [Bool.false_eq_true, if_neg] at hc
        rcases List.mem_cons.mp hc with h1 | h1
        · subst h1
          decide
        · exact ih true c h1
    · rw [if_neg ha] at hc
      rcases List.mem_cons.mp hc with h1 | h1
      · subst h1
        simpa using ha
      · exact ih false c h1

theorem replaceBanned_not_banned (c : Char) : isBannedChar (replaceBanned c) = false := by
  unfold replaceBanned
  by_cases h : isBannedChar c = true
  · rw [if_pos h]
    decide
  · rw [if_neg h]
    simpa using h

theorem jsOrS_some (s : String) (b : String) :
    jsOrS (some s) b = if s = "" then b else s := rfl

theorem jsOrS_data_ne_nil (name : Option String) : (jsOrS name "file").data ≠ [] := by
  cases name with
  | none => decide
  | some s =>
    by_cases hs : s = ""
    · rw [jsOrS_some, if_pos hs]
      decide
    · rw [jsOrS_some, if_neg hs]
      intro hd
      exact hs (String.ext (by simpa using hd))

/-- Claim C10: the sanitizer returns a nonempty string of at most 200
characters with no path-unsafe character and no whitespace; a missing or
empty name yields "file"; and the import destination path appends the
sanitized, slash-free name as a single segment under the inbox root. -/
theorem sanitizeFileName_spec (name : Option String) (inbox : String) :
    sanitizeFileName name ≠ "" ∧
    (sanitizeFileName name).length ≤ 200 ∧
    (∀ c ∈ (sanitizeFileName name).data, isBannedChar c = false ∧ isJsWs c = false) ∧
    sanitizeFileName none = "file" ∧
    sanitizeFileName (some "") = "file" ∧
    importDestPath inbox name = stripTrailingSlashes inbox ++ "/" ++ sanitizeFileName name ∧
    '/' ∉ (sanitizeFileName name).data := by
  have hchars : ∀ c ∈ (sanitizeFileName name).data,
      isBannedChar c = false ∧ isJsWs c = false := by
    intro c hc
    have hc1 : c ∈ collapseWhitespace false ((jsOrS name "file").data.map replaceBanned) := by
      unfold sanitizeFileName at hc
      exact List.mem_of_mem_take (by simpa using hc)
    refine ⟨?_, collapseWhitespace_no_ws false _ c hc1⟩
    rcases mem_collapseWhitespace false _ c hc1 with h1 | h1
    · subst h1
      decide
    · rcases List.mem_map.mp h1 with ⟨c0, _, rfl⟩
      exact replaceBanned_not_banned c0
  refine ⟨?_, ?_, hchars, by decide, by decide, rfl, ?_⟩
  · intro h
    have hdata : (List.take 200 (collapseWhitespace false
        ((jsOrS name "file").data.map replaceBanned))) = [] := by
      simpa [sanitizeFileName] using congrArg String.data h
    rcases List.take_eq_nil_iff.mp hdata with h0 | h0
    · exact absurd h0 (by decide)
    · exact collapseWhitespace_ne_nil _
        (by simpa [List.map_eq_nil_iff] using jsOrS_data_ne_nil name) h0
  · show (sanitizeFileName name).data.length ≤ 200
    simp only [sanitizeFileName, List.length_take]
    exact min_le_left _ _
  · intro h
    have := (hchars '/' h).1
    simp [isBannedChar] at this

/-- Claim C10 witness: the sanitizer on a concrete unsafe name clears the
unsafe characters, and the empty name falls back to "file". -/
theorem sanitizeFileName_spec_witness :
    sanitizeFileName (some "a b:c") ≠ "" ∧
    (sanitizeFileName (some "a b:c")).length ≤ 200 ∧
    (∀ c ∈ (sanitizeFileName (some "a b:c")).data,
      isBannedChar c = false ∧ isJsWs c = false) ∧
    sanitizeFileName none = "file" ∧
    sanitizeFileName (some "") = "file" ∧
    importDestPath "/inbox" (some "a b:c") =
      stripTrailingSlashes "/inbox" ++ "/" ++ sanitizeFileName (some "a b:c") ∧
    '/' ∉ (sanitizeFileName (some "a b:c")).data :=
  sanitizeFileName_spec (some "a b:c") "/inbox"

-- ── Download proxy lemmas ───────────────────────────────────────────────────

theorem getMappingByPath_touch_self (dbs : List Row) (p : String) (now : Int) :
    getMappingByPath (touchMapping dbs p now) p =
      (getMappingByPath dbs p).map (fun r => { r with last_accessed := now }) := by
  unfold touchMapping
  exact getMappingByPath_updateWhere_self p _ dbs (fun r h => h)

theorem getMappingByPath_markEvicted_self (dbs : List Row) (p : String) :
    getMappingByPath (markEvicted dbs p) p =
      (getMappingByPath dbs p).map (fun r => { r with has_local_cache := 0 }) := by
  unfold markEvicted
  exact getMappingByPath_updateWhere_self p _ dbs (fun r h => h)

/-- Claim C1: on a mapping whose cached flag is false, with a Telegram
download that resolves and a Cloudreve upload that succeeds, downloadProxy
returns the restored bytes with the resolved MIME and name, and afterwards
the stored mapping has a local cache copy, carries the freshly returned
Cloudreve id, and keeps its Telegram id, Telegram message id and created-at
unchanged. -/
theorem downloadProxy_restore_success
    (env : Env) (dbs : List Row) (p : String) (m : Row) (buf : List Nat)
    (tgMime : String) (newId : String)
    (hm : getMappingByPath dbs p = some m)
    (hc : m.has_local_cache = 0)
    (htg : env.telegramDownload m.telegram_file_id = some (buf, tgMime))
    (hdir : env.ensureDirectory (parentOf p) = true)
    (hup : env.cloudreveUpload
      { filePath := p, fileName := jsOrS m.file_name "file",
        fileSize := buf.length, mimeType := jsOrS m.mime_type tgMime,
        data := buf } = some newId) :
    ∃ dbs2,
      downloadProxy env dbs p =
        .ok ({ buffer := buf, fileName := some (jsOrS m.file_name "file"),
               mimeType := jsOrS m.mime_type tgMime }, dbs2) ∧
      getMappingByPath dbs2 p = some
        { cloudreve_file_id := some newId, cloudreve_path := p,
          telegram_file_id := m.telegram_file_id,
          telegram_message_id := m.telegram_message_id,
          file_name := some (jsOrS m.file_name "file"),
          file_size := buf.length,
          mime_type := some (jsOrS m.mime_type tgMime),
          last_accessed := env.now, created_at := m.created_at,
          has_local_cache := 1 } := by
  have hc' : (m.has_local_cache != 0) = false := by
    simp [hc]
  refine ⟨upsertMapping (touchMapping dbs p env.now)
    { cloudreveFileId := some newId, cloudreve_path := p,
      telegramFileId := m.telegram_file_id,
      telegramMessageId := m.telegram_message_id,
      fileName := some (jsOrS m.file_name "file"),
      fileSize := some buf.length,
      mimeType := some (jsOrS m.mime_type tgMime),
      lastAccessed := some env.now,
      createdAt := some m.created_at, hasLocalCache := some 1 } env.now, ?_, ?_⟩
  · simp only [downloadProxy, hm, hc', Bool.false_eq_true, if_false, htg, hdir, if_true, hup]
  · have htouch : getMappingByPath (touchMapping dbs p env.now) p =
        some { m with last_accessed := env.now } := by
      rw [getMappingByPath_touch_self, hm]
      rfl
    have hupd := upsertMapping_eq_update (touchMapping dbs p env.now)
      { cloudreveFileId := some newId, cloudreve_path := p,
        telegramFileId := m.telegram_file_id,
        telegramMessageId := m.telegram_message_id,
        fileName := some (jsOrS m.file_name "file"),
        fileSize := some buf.length,
        mimeType := some (jsOrS m.mime_type tgMime),
        lastAccessed := some env.now,
        createdAt := some m.created_at, hasLocalCache := some 1 } env.now
      { m with last_accessed := env.now } htouch
    rw [hupd, getMappingByPath_updateWhere_self p _ _ (fun r _ => rfl), htouch]
    rfl

/-- Claim C1 witness: a concrete evicted mapping restored through concrete
store oracles. -/
theorem downloadProxy_restore_success_witness :
    ∃ dbs2,
      downloadProxy envC1 [rowC1] "/inbox/a.txt" =
        .ok ({ buffer := [1, 2], fileName := some "a.txt",
               mimeType := "text/plain" }, dbs2) ∧
      getMappingByPath dbs2 "/inbox/a.txt" = some
        { cloudreve_file_id := some "cf-new", cloudreve_path := "/inbox/a.txt",
          telegram_file_id := "tg1", telegram_message_id := some 5,
          file_name := some "a.txt", file_size := 2,
          mime_type := some "text/plain", last_accessed := 100,
          created_at := 40, has_local_cache := 1 } :=
  downloadProxy_restore_success envC1 [rowC1] "/inbox/a.txt" rowC1 [1, 2]
    "text/plain" "cf-new" rfl rfl rfl rfl rfl

/-- Claim C2: when the restore path is reached (no cached copy, or the
cache-hit fetch failed) and the Cloudreve upload throws, downloadProxy still
resolves with the bytes fetched from Telegram and the stored mapping is
marked evicted. -/
theorem downloadProxy_restore_uploadFail
    (env : Env) (dbs : List Row) (p : String) (m : Row) (buf : List Nat)
    (tgMime : String)
    (hm : getMappingByPath dbs p = some m)
    (hreach : m.has_local_cache = 0 ∨ env.cloudreveDownload m.cloudreve_file_id = none)
    (htg : env.telegramDownload m.telegram_file_id = some (buf, tgMime))
    (hdir : env.ensureDirectory (parentOf p) = true)
    (hup : env.cloudreveUpload
      { filePath := p, fileName := jsOrS m.file_name "file",
        fileSize := buf.length, mimeType := jsOrS m.mime_type tgMime,
        data := buf } = none) :
    downloadProxy env dbs p =
      .ok ({ buffer := buf, fileName := some (jsOrS m.file_name "file"),
             mimeType := jsOrS m.mime_type tgMime },
           markEvicted (touchMapping dbs p env.now) p) ∧
    (getMappingByPath (markEvicted (touchMapping dbs p env.now) p) p).map
      (fun r => r.has_local_cache) = some 0 := by
  constructor
  · by_cases hc : m.has_local_cache = 0
    · have hc' : (m.has_local_cache != 0) = false := by
        simp [hc]
      simp only [downloadProxy, hm, hc', Bool.false_eq_true, if_false, htg, hdir,
        if_true, hup]
    · have hc' : (m.has_local_cache != 0) = true := by
        simpa using hc
      have hcd : env.cloudreveDownload m.cloudreve_file_id = none := by
        rcases hreach with h | h
        · exact absurd h hc
        · exact h
      simp only [downloadProxy, hm, hc', if_true, hcd, htg, hdir, hup]
  · rw [getMappingByPath_markEvicted_self, getMappingByPath_touch_self, hm]
    rfl

/-- Claim C2 witness: a cached mapping whose Cloudreve fetch and re-upload
both fail still serves the Telegram bytes and ends up marked evicted. -/
theorem downloadProxy_restore_uploadFail_witness :
    (getMappingByPath [rowC2] "/inbox/b.txt" = some rowC2 ∧
      envC2.cloudreveUpload
        { filePath := "/inbox/b.txt", fileName := "b.txt", fileSize := 1,
          mimeType := "text/html", data := [9] } = none) ∧
    downloadProxy envC2 [rowC2] "/inbox/b.txt" =
      .ok ({ buffer := [9], fileName := some "b.txt", mimeType := "text/html" },
           markEvicted (touchMapping [rowC2] "/inbox/b.txt" 100) "/inbox/b.txt") ∧
    (getMappingByPath
        (markEvicted (touchMapping [rowC2] "/inbox/b.txt" 100) "/inbox/b.txt")
        "/inbox/b.txt").map (fun r => r.has_local_cache) = some 0 := by
  refine ⟨⟨rfl, rfl⟩, ?_⟩
  exact downloadProxy_restore_uploadFail envC2 [rowC2] "/inbox/b.txt" rowC2 [9]
    "text/html" rfl (Or.inr rfl) rfl rfl rfl

/-- Claim C4 counterexample: in the cache-hit branch the code prefers the
live content-type header over the stored metadata — here the stored MIME is
"text/plain" but the returned MIME is the live header "application/json",
refuting the claim that stored metadata is preferred. -/
theorem downloadProxy_cacheHit_mime_cex :
    rowC4.mime_type = some "text/plain" ∧
    downloadProxy envC4 [rowC4] "/inbox/c.bin" =
      .ok ({ buffer := [3], fileName := some "c.bin",
             mimeType := "application/json" },
           touchMapping [rowC4] "/inbox/c.bin" 100) ∧
    ("application/json" : String) ≠ "text/plain" := by
  refine ⟨rfl, rfl, by decide⟩

/-- Claim C4 amended: in the cache-hit branch, when the Cloudreve fetch
succeeds, the returned MIME type prefers the live content-type header, falls
back to the stored mapping metadata, and defaults to
application/octet-stream. -/
theorem downloadProxy_cacheHit_mime
    (env : Env) (dbs : List Row) (p : String) (m : Row) (buf : List Nat)
    (hdr : Option String)
    (hm : getMappingByPath dbs p = some m)
    (hc : m.has_local_cache ≠ 0)
    (hcd : env.cloudreveDownload m.cloudreve_file_id = some (buf, hdr)) :
    downloadProxy env dbs p =
      .ok ({ buffer := buf, fileName := m.file_name,
             mimeType := jsOrS hdr (jsOrS m.mime_type "application/octet-stream") },
           touchMapping dbs p env.now) := by
  have hc' : (m.has_local_cache != 0) = true := by
    simpa using hc
  simp only [downloadProxy, hm, hc', if_true, hcd]

/-- Claim C4 amended witness: the concrete cache hit of the counterexample
fixture, derived from the amended theorem. -/
theorem downloadProxy_cacheHit_mime_witness :
    downloadProxy envC4 [rowC4] "/inbox/c.bin" =
      .ok ({ buffer := [3], fileName := some "c.bin",
             mimeType := "application/json" },
           touchMapping [rowC4] "/inbox/c.bin" 100) :=
  downloadProxy_cacheHit_mime envC4 [rowC4] "/inbox/c.bin" rowC4 [3]
    (some "application/json") rfl (by decide) rfl

-- ── Eviction lemmas (claim C9) ──────────────────────────────────────────────

theorem runEviction_fold (env : Env) (es : List Row) (acc : EvictResult) (d : List Row) :
    (es.foldl (evictStep env) (acc, d)).1.evicted =
      acc.evicted + (es.filter (fun e => env.cloudreveDelete e.cloudreve_path)).length ∧
    (es.foldl (evictStep env) (acc, d)).1.errors =
      acc.errors + (es.filter (fun e => !env.cloudreveDelete e.cloudreve_path)).length ∧
    (es.foldl (evictStep env) (acc, d)).2 =
      d.map (fun r =>
        if es.any (fun e => e.cloudreve_path == r.cloudreve_path &&
            env.cloudreveDelete e.cloudreve_path)
        then { r with has_local_cache := 0 } else r) := by
  induction es generalizing acc d with
  | nil => simp
  | cons e rest ih =>
    by_cases hdel : env.cloudreveDelete e.cloudreve_path = true
    · have hstep : evictStep env (acc, d) e =
          ({ acc with evicted := acc.evicted + 1 }, markEvicted d e.cloudreve_path) := by
        simp [evictStep, hdel]
      rw [List.foldl_cons, hstep]
      obtain ⟨ih1, ih2, ih3⟩ :=
        ih { acc with evicted := acc.evicted + 1 } (markEvicted d e.cloudreve_path)
      refine ⟨?_, ?_, ?_⟩
      · rw [ih1, List.filter_cons]
        simp [hdel]
        omega
      · rw [ih2, List.filter_cons]
        simp [hdel]
      · rw [ih3]
        unfold markEvicted updateWhere
        rw [List.map_map]
        apply List.map_congr_left
        intro r _
        by_cases hpr : (r.cloudreve_path == e.cloudreve_path) = true
        · have hpr' : r.cloudreve_path = e.cloudreve_path := by simpa using hpr
          have hhead : (e.cloudreve_path == r.cloudreve_path &&
              env.cloudreveDelete e.cloudreve_path) = true := by
            simp [hpr', hdel]
          simp only [Function.comp, hpr, if_pos, List.any_cons, hhead,
            Bool.true_or, if_true]
          split <;> rfl
        · have hpr'' : ¬ r.cloudreve_path = e.cloudreve_path := by simpa using hpr
          have hhead : (e.cloudreve_path == r.cloudreve_path &&
              env.cloudreveDelete e.cloudreve_path) = false := by
            simp
            intro h
            exact absurd h.symm hpr''
          simp only [Function.comp, hpr, Bool.false_eq_true, if_false,
            List.any_cons, hhead, Bool.false_or]
    · have hdel' : env.cloudreveDelete e.cloudreve_path = false := by
        simpa using hdel
      have hstep : evictStep env (acc, d) e =
          ({ acc with errors := acc.errors + 1 }, d) := by
        simp [evictStep, hdel']
      rw [List.foldl_cons, hstep]
      obtain ⟨ih1, ih2, ih3⟩ := ih { acc with errors := acc.errors + 1 } d
      refine ⟨?_, ?_, ?_⟩
      · rw [ih1, List.filter_cons]
        simp [hdel']
      · rw [ih2, List.filter_cons]
        simp [hdel']
        omega
      · rw [ih3]
        apply List.map_congr_left
        intro r _
        have hhead : (e.cloudreve_path == r.cloudreve_path &&
            env.cloudreveDelete e.cloudreve_path) = false := by
          simp [hdel']
        simp only [List.any_cons, hhead, Bool.false_or]

/-- Claim C9: an eviction pass counts one eviction for every stale entry
whose Cloudreve delete succeeds and one error for every stale entry whose
delete fails; the resulting store marks exactly the successfully deleted
paths as evicted and leaves every other row (including its cached flag and
Telegram id) untouched; an empty stale list yields zero counts and an
unchanged store; the pass is total, so a per-item failure never aborts it. -/
theorem runEviction_spec (env : Env) (dbs : List Row) :
    (runEviction env dbs).1.evicted =
      ((getStaleEntries dbs (env.cacheIdleDays * 24 * 60 * 60) env.now).filter
        (fun e => env.cloudreveDelete e.cloudreve_path)).length ∧
    (runEviction env dbs).1.errors =
      ((getStaleEntries dbs (env.cacheIdleDays * 24 * 60 * 60) env.now).filter
        (fun e => !env.cloudreveDelete e.cloudreve_path)).length ∧
    (runEviction env dbs).2 =
      dbs.map (fun r =>
        if (getStaleEntries dbs (env.cacheIdleDays * 24 * 60 * 60) env.now).any
            (fun e => e.cloudreve_path == r.cloudreve_path &&
              env.cloudreveDelete e.cloudreve_path)
        then { r with has_local_cache := 0 } else r) ∧
    (getStaleEntries dbs (env.cacheIdleDays * 24 * 60 * 60) env.now = [] →
      runEviction env dbs = ({ evicted := 0, errors := 0 }, dbs)) := by
  by_cases hemp : (getStaleEntries dbs (env.cacheIdleDays * 24 * 60 * 60) env.now).isEmpty = true
  · have hnil : getStaleEntries dbs (env.cacheIdleDays * 24 * 60 * 60) env.now = [] :=
      List.isEmpty_iff.mp hemp
    have hrun : runEviction env dbs = ({ evicted := 0, errors := 0 }, dbs) := by
      simp only [runEviction]
      rw [hnil]
      rfl
    rw [hrun, hnil]
    refine ⟨rfl, rfl, ?_, fun _ => rfl⟩
    simp
  · have hrun : runEviction env dbs =
        (getStaleEntries dbs (env.cacheIdleDays * 24 * 60 * 60) env.now).foldl
          (evictStep env) ({ evicted := 0, errors := 0 }, dbs) := by
      simp only [runEviction]
      rw [if_neg hemp]
    obtain ⟨h1, h2, h3⟩ := runEviction_fold env
      (getStaleEntries dbs (env.cacheIdleDays * 24 * 60 * 60) env.now)
      { evicted := 0, errors := 0 } dbs
    rw [hrun]
    refine ⟨by simpa using h1, by simpa using h2, h3, ?_⟩
    intro hnil
    exact absurd (List.isEmpty_iff.mpr hnil) hemp

/-- Claim C9 witness: a concrete pass over two stale rows where one delete
succeeds and one fails. -/
theorem runEviction_spec_witness :
    (runEviction envC9 dbC9).1.evicted =
      ((getStaleEntries dbC9 (envC9.cacheIdleDays * 24 * 60 * 60) envC9.now).filter
        (fun e => envC9.cloudreveDelete e.cloudreve_path)).length ∧
    (runEviction envC9 dbC9).1.errors =
      ((getStaleEntries dbC9 (envC9.cacheIdleDays * 24 * 60 * 60) envC9.now).filter
        (fun e => !envC9.cloudreveDelete e.cloudreve_path)).length ∧
    (runEviction envC9 dbC9).2 =
      dbC9.map (fun r =>
        if (getStaleEntries dbC9 (envC9.cacheIdleDays * 24 * 60 * 60) envC9.now).any
            (fun e => e.cloudreve_path == r.cloudreve_path &&
              envC9.cloudreveDelete e.cloudreve_path)
        then { r with has_local_cache := 0 } else r) ∧
    (getStaleEntries dbC9 (envC9.cacheIdleDays * 24 * 60 * 60) envC9.now = [] →
      runEviction envC9 dbC9 = ({ evicted := 0, errors := 0 }, dbC9)) :=
  runEviction_spec envC9 dbC9

-- ── Import engine lemmas (claim C8) ─────────────────────────────────────────

/-- Claim C8: once an import succeeded, a second import whose file name
sanitizes to the same destination path resolves with the same result without
touching either store (zero Telegram downloads and zero Cloudreve uploads)
and without changing the mapping store; the returned Telegram id is the one
stored in the existing mapping, and the link is built from the Cloudreve
base URL. -/
theorem importFromTelegram_idempotent
    (env : Env) (dbs : List Row) (a1 a2 : ImportArgs)
    (r1 : ImportResult) (dbs1 : List Row) (eff1 : ImportEffects)
    (hsan : sanitizeFileName a1.fileName = sanitizeFileName a2.fileName)
    (h1 : importFromTelegram env dbs a1 = .ok (r1, dbs1, eff1)) :
    importFromTelegram env dbs1 a2 =
      .ok (r1, dbs1, { tgDownloads := 0, crUploads := 0, ensures := 0 }) ∧
    (getMappingByPath dbs1 r1.cloudreve_path).map (fun r => r.telegram_file_id) =
      some r1.tgFileId ∧
    r1.directLink = buildCloudreveLink env.baseUrl r1.cloudreve_path := by
  have hdest : importDestPath env.inboxPath a2.fileName =
      importDestPath env.inboxPath a1.fileName := by
    unfold importDestPath
    rw [← hsan]
  rcases hex : getMappingByPath dbs (importDestPath env.inboxPath a1.fileName)
    with _ | ex
  · -- first call actually imported
    by_cases hens : env.ensureDirectory env.inboxPath = true
    · rcases htg : env.telegramDownload a1.telegramFileId with _ | ⟨buf, det⟩
      · simp only [importFromTelegram, hex, hens, if_true, htg] at h1
        simp at h1
      · rcases hup : env.cloudreveUpload
          { filePath := importDestPath env.inboxPath a1.fileName,
            fileName := sanitizeFileName a1.fileName,
            fileSize := buf.length, mimeType := jsOrS a1.mimeType det,
            data := buf } with _ | cid
        · simp only [importFromTelegram, hex, hens, if_true, htg, hup] at h1
          simp at h1
        · simp only [importFromTelegram, hex, hens, if_true, htg, hup,
            Except.ok.injEq, Prod.mk.injEq] at h1
          obtain ⟨hr, hdb, _⟩ := h1
          have happ : upsertMapping dbs
              { cloudreveFileId := some cid,
                cloudreve_path := importDestPath env.inboxPath a1.fileName,
                telegramFileId := a1.telegramFileId,
                telegramMessageId := a1.telegramMessageId,
                fileName := some (sanitizeFileName a1.fileName),
                fileSize := some (jsOrN a1.fileSize buf.length),
                mimeType := some (jsOrS a1.mimeType det),
                lastAccessed := some env.now,
                createdAt := some env.now, hasLocalCache := some 1 } env.now =
              dbs ++ [storedRow
              { cloudreveFileId := some cid,
                cloudreve_path := importDestPath env.inboxPath a1.fileName,
                telegramFileId := a1.telegramFileId,
                telegramMessageId := a1.telegramMessageId,
                fileName := some (sanitizeFileName a1.fileName),
                fileSize := some (jsOrN a1.fileSize buf.length),
                mimeType := some (jsOrS a1.mimeType det),
                lastAccessed := some env.now,
                createdAt := some env.now, hasLocalCache := some 1 } env.now] :=
            upsertMapping_eq_append dbs _ env.now hex
          have hnew : getMappingByPath dbs1 (importDestPath env.inboxPath a1.fileName) =
              some (storedRow
              { cloudreveFileId := some cid,
                cloudreve_path := importDestPath env.inboxPath a1.fileName,
                telegramFileId := a1.telegramFileId,
                telegramMessageId := a1.telegramMessageId,
                fileName := some (sanitizeFileName a1.fileName),
                fileSize := some (jsOrN a1.fileSize buf.length),
                mimeType := some (jsOrS a1.mimeType det),
                lastAccessed := some env.now,
                createdAt := some env.now, hasLocalCache := some 1 } env.now) := by
            rw [← hdb, happ, getMappingByPath_append_single dbs _ _ hex]
            simp [storedRow]
          refine ⟨?_, ?_, ?_⟩
          · simp only [importFromTelegram, hdest, hnew]
            rw [← hr]
            rfl
          · rw [← hr]
            simp only [hnew]
            rfl
          · rw [← hr]
    · simp only [importFromTelegram, hex, hens, if_false] at h1
      simp at h1
  · -- first call already short-circuited
    simp only [importFromTelegram, hex, Except.ok.injEq, Prod.mk.injEq] at h1
    obtain ⟨hr, hdb, _⟩ := h1
    refine ⟨?_, ?_, ?_⟩
    · rw [← hdb]
      simp only [importFromTelegram, hdest, hex]
      rw [← hr]
    · rw [← hr, ← hdb]
      simp only [hex]
      rfl
    · rw [← hr]

/-- Claim C8 witness: repeating a concrete successful import resolves with
the same result and zero network effects. -/
theorem importFromTelegram_idempotent_witness :
    importFromTelegram envC8 dbC8after argsC8 =
      .ok (resC8, dbC8after, { tgDownloads := 0, crUploads := 0, ensures := 0 }) ∧
    (getMappingByPath dbC8after resC8.cloudreve_path).map
      (fun r => r.telegram_file_id) = some resC8.tgFileId ∧
    resC8.directLink = buildCloudreveLink envC8.baseUrl resC8.cloudreve_path :=
  importFromTelegram_idempotent envC8 [] argsC8 argsC8 resC8 dbC8after
    { tgDownloads := 1, crUploads := 1, ensures := 1 } rfl rfl

-- ── Sync engine lemmas (claims C6 and C7) ───────────────────────────────────

theorem isSome_getMappingByPath_append (dbs : List Row) (x : Row) (q : String)
    (h : (getMappingByPath dbs q).isSome = true) :
    (getMappingByPath (dbs ++ [x]) q).isSome = true := by
  unfold getMappingByPath at *
  rw [List.find?_append]
  rcases hfind : dbs.find? (fun r => r.cloudreve_path == q) with _ | m
  · rw [hfind] at h
    simp at h
  · rw [hfind]
    rfl

theorem isSome_getMappingByPath_upsert (dbs : List Row) (rec : UpsertRecord)
    (now : Int) (q : String)
    (h : (getMappingByPath dbs q).isSome = true) :
    (getMappingByPath (upsertMapping dbs rec now) q).isSome = true := by
  rcases hex : getMappingByPath dbs rec.cloudreve_path with _ | old
  · rw [upsertMapping_eq_append dbs rec now hex]
    exact isSome_getMappingByPath_append dbs _ q h
  · rw [upsertMapping_eq_update dbs rec now old hex]
    by_cases hq : q = rec.cloudreve_path
    · subst hq
      rw [getMappingByPath_updateWhere_self rec.cloudreve_path
        (fun o => { storedRow rec now with created_at := o.created_at }) dbs
        (fun r _ => rfl), hex]
      rfl
    · rw [getMappingByPath_updateWhere_ne rec.cloudreve_path q
        (fun o => { storedRow rec now with created_at := o.created_at }) dbs
        (fun r _ => rfl) hq]
      exact h

theorem isSome_getMappingByPath_syncStep (env : Env) (tgt : String)
    (st : SyncState) (f : FileObj) (q : String)
    (h : (getMappingByPath st.db q).isSome = true) :
    (getMappingByPath (syncStep env tgt st f).db q).isSome = true := by
  rcases hmap : getMappingByPath st.db (syncFilePath tgt f) with _ | m
  · rcases hdl : env.cloudreveDownload (some f.fileId) with _ | ⟨buf, hdr⟩
    · simp only [syncStep, hmap, hdl]
      exact h
    · rcases hup : env.telegramUpload (syncUploadReq tgt f buf hdr) with _ | ⟨tgId, msgId⟩
      · simp only [syncStep, hmap, hdl, hup]
        exact h
      · simp only [syncStep, hmap, hdl, hup]
        exact isSome_getMappingByPath_upsert _ _ _ _ h
  · simp only [syncStep, hmap]
    exact h

theorem isSome_getMappingByPath_syncFold (env : Env) (tgt : String)
    (files : List FileObj) (st : SyncState) (q : String)
    (h : (getMappingByPath st.db q).isSome = true) :
    (getMappingByPath ((files.foldl (syncStep env tgt) st).db) q).isSome = true := by
  induction files generalizing st with
  | nil => exact h
  | cons g rest ih =>
    rw [List.foldl_cons]
    exact ih _ (isSome_getMappingByPath_syncStep env tgt st g q h)

theorem syncFold_covers (env : Env) (tgt : String) (files : List FileObj)
    (st : SyncState) :
    ∀ f ∈ files,
      (getMappingByPath ((files.foldl (syncStep env tgt) st).db)
        (syncFilePath tgt f)).isSome = true ∨ syncFails env tgt f := by
  induction files generalizing st with
  | nil =>
    intro f hf
    exact absurd hf (List.not_mem_nil f)
  | cons g rest ih =>
    intro f hf
    rw [List.foldl_cons]
    rcases List.mem_cons.mp hf with hfg | hfr
    · subst hfg
      rcases hmap : getMappingByPath st.db (syncFilePath tgt f) with _ | m
      · rcases hdl : env.cloudreveDownload (some f.fileId) with _ | ⟨buf, hdr⟩
        · right
          unfold syncFails
          rw [hdl]
          trivial
        · rcases hup : env.telegramUpload (syncUploadReq tgt f buf hdr) with _ | ⟨tgId, msgId⟩
          · right
            unfold syncFails
            rw [hdl]
            exact hup
          · left
            have hstep : (syncStep env tgt st f).db =
                st.db ++ [storedRow (syncUpsertRecord env tgt f buf hdr tgId msgId) env.now] := by
              simp only [syncStep, hmap, hdl, hup]
              exact upsertMapping_eq_append _ _ _ hmap
            have hins : (getMappingByPath ((syncStep env tgt st f).db)
                (syncFilePath tgt f)).isSome = true := by
              rw [hstep, getMappingByPath_append_single st.db _ _ hmap]
              simp [storedRow, syncUpsertRecord]
            exact isSome_getMappingByPath_syncFold env tgt rest _ _ hins
      · left
        have hstep : syncStep env tgt st f = st := by
          simp only [syncStep, hmap]
        rw [hstep]
        exact isSome_getMappingByPath_syncFold env tgt rest st _ (by rw [hmap]; rfl)
    · exact ih (syncStep env tgt st g) f hfr

theorem syncFold_no_new (env : Env) (tgt : String) (files : List FileObj)
    (st : SyncState)
    (h : ∀ f ∈ files,
      (getMappingByPath st.db (syncFilePath tgt f)).isSome = true ∨
        syncFails env tgt f) :
    (files.foldl (syncStep env tgt) st).synced = st.synced ∧
    (files.foldl (syncStep env tgt) st).db = st.db := by
  induction files generalizing st with
  | nil => exact ⟨rfl, rfl⟩
  | cons g rest ih =>
    rw [List.foldl_cons]
    have hg := h g (List.mem_cons_self g rest)
    have hstep : (syncStep env tgt st g).db = st.db ∧
        (syncStep env tgt st g).synced = st.synced := by
      rcases hmap : getMappingByPath st.db (syncFilePath tgt g) with _ | m
      · have hfail : syncFails env tgt g := by
          rcases hg with hsome | hfail
          · rw [hmap] at hsome
            simp at hsome
          · exact hfail
        unfold syncFails at hfail
        rcases hdl : env.cloudreveDownload (some g.fileId) with _ | ⟨buf, hdr⟩
        · simp [syncStep, hmap, hdl]
        · rw [hdl] at hfail
          have hup : env.telegramUpload (syncUploadReq tgt g buf hdr) = none := hfail
          simp [syncStep, hmap, hdl, hup]
      · simp [syncStep, hmap]
    have hrest : ∀ f ∈ rest,
        (getMappingByPath ((syncStep env tgt st g).db) (syncFilePath tgt f)).isSome = true ∨
          syncFails env tgt f := by
      intro f hf
      rw [hstep.1]
      exact h f (List.mem_cons_of_mem g hf)
    obtain ⟨ih1, ih2⟩ := ih (syncStep env tgt st g) hrest
    exact ⟨by rw [ih1, hstep.2], by rw [ih2, hstep.1]⟩

theorem syncFold_new_rows (env : Env) (tgt : String) (files : List FileObj)
    (st : SyncState) :
    ∀ row ∈ (files.foldl (syncStep env tgt) st).db,
      row ∈ st.db ∨ (row.last_accessed = env.now ∧ row.has_local_cache = 1) := by
  induction files generalizing st with
  | nil =>
    intro row hrow
    exact Or.inl hrow
  | cons g rest ih =>
    intro row hrow
    rw [List.foldl_cons] at hrow
    rcases ih (syncStep env tgt st g) row hrow with hin | hnew
    · rcases hmap : getMappingByPath st.db (syncFilePath tgt g) with _ | m
      · rcases hdl : env.cloudreveDownload (some g.fileId) with _ | ⟨buf, hdr⟩
        · left
          simpa [syncStep, hmap, hdl] using hin
        · rcases hup : env.telegramUpload (syncUploadReq tgt g buf hdr) with _ | ⟨tgId, msgId⟩
          · left
            simpa [syncStep, hmap, hdl, hup] using hin
          · have hstep : (syncStep env tgt st g).db =
                st.db ++ [storedRow (syncUpsertRecord env tgt g buf hdr tgId msgId) env.now] := by
              simp only [syncStep, hmap, hdl, hup]
              exact upsertMapping_eq_append _ _ _ hmap
            rw [hstep] at hin
            rcases List.mem_append.mp hin with h1 | h1
            · exact Or.inl h1
            · right
              have heq : row = storedRow (syncUpsertRecord env tgt g buf hdr tgId msgId) env.now := by
                simpa using h1
              subst heq
              exact ⟨rfl, rfl⟩
      · left
        have hstep : syncStep env tgt st g = st := by
          simp only [syncStep, hmap]
        rw [hstep] at hin
        exact hin
    · exact Or.inr hnew

/-- Claim C7: after any successful sync run, a second run over the unchanged
directory and unchanged mapping store returns synced equal to zero and leaves
the mapping store unchanged; moreover a file whose full path already has a
mapping is skipped outright, regardless of its cached state: the loop state
(store, counts, upload attempts) is untouched, so no Telegram upload and no
upsert happens for it. -/
theorem syncNewUploads_idempotent
    (env : Env) (dirPath : Option String) (dbs : List Row)
    (r1 : SyncResult) (dbs1 : List Row)
    (h1 : syncNewUploads env dirPath dbs = .ok (r1, dbs1)) :
    (∃ e u, syncNewUploads env dirPath dbs1 =
      .ok ({ synced := 0, errors := e, tgUploads := u }, dbs1)) ∧
    (∀ st f,
      (getMappingByPath st.db (syncFilePath (jsOrS dirPath env.inboxPath) f)).isSome = true →
      syncStep env (jsOrS dirPath env.inboxPath) st f = st) := by
  constructor
  · by_cases hens : env.ensureDirectory (jsOrS dirPath env.inboxPath) = true
    · simp only [syncNewUploads, hens, if_true, Except.ok.injEq, Prod.mk.injEq] at h1
      obtain ⟨_, hdb⟩ := h1
      have hcov := syncFold_covers env (jsOrS dirPath env.inboxPath)
        (((env.listDirectory (jsOrS dirPath env.inboxPath)).getD []).filter
          (fun o => o.type == "file"))
        { db := dbs, synced := 0, errors := 0, tgUploads := 0 }
      have hcov1 : ∀ f ∈ (((env.listDirectory (jsOrS dirPath env.inboxPath)).getD []).filter
          (fun o => o.type == "file")),
          (getMappingByPath dbs1 (syncFilePath (jsOrS dirPath env.inboxPath) f)).isSome = true ∨
            syncFails env (jsOrS dirPath env.inboxPath) f := by
        intro f hf
        rcases hcov f hf with h | h
        · left
          rw [← hdb]
          exact h
        · right
          exact h
      obtain ⟨hs, hd⟩ := syncFold_no_new env (jsOrS dirPath env.inboxPath)
        (((env.listDirectory (jsOrS dirPath env.inboxPath)).getD []).filter
          (fun o => o.type == "file"))
        { db := dbs1, synced := 0, errors := 0, tgUploads := 0 }
        (by intro f hf; exact hcov1 f hf)
      refine ⟨((((env.listDirectory (jsOrS dirPath env.inboxPath)).getD []).filter
          (fun o => o.type == "file")).foldl
            (syncStep env (jsOrS dirPath env.inboxPath))
            { db := dbs1, synced := 0, errors := 0, tgUploads := 0 }).errors,
        ((((env.listDirectory (jsOrS dirPath env.inboxPath)).getD []).filter
          (fun o => o.type == "file")).foldl
            (syncStep env (jsOrS dirPath env.inboxPath))
            { db := dbs1, synced := 0, errors := 0, tgUploads := 0 }).tgUploads, ?_⟩
      simp only [syncNewUploads, hens, if_true, Except.ok.injEq, Prod.mk.injEq]
      refine ⟨?_, by simpa using hd⟩
      have hs0 : ((((env.listDirectory (jsOrS dirPath env.inboxPath)).getD []).filter
          (fun o => o.type == "file")).foldl
            (syncStep env (jsOrS dirPath env.inboxPath))
            { db := dbs1, synced := 0, errors := 0, tgUploads := 0 }).synced = 0 := by
        simpa using hs
      simp [hs0]
    · simp only [syncNewUploads, hens, if_false] at h1
      simp at h1
  · intro st f hsome
    rcases hmap : getMappingByPath st.db (syncFilePath (jsOrS dirPath env.inboxPath) f)
      with _ | m
    · rw [hmap] at hsome
      simp at hsome
    · simp only [syncStep, hmap]

/-- Claim C7 witness: re-running the concrete claim C6 fixture sync over its
own output store syncs nothing and leaves the store unchanged. -/
theorem syncNewUploads_idempotent_witness :
    ∃ e u, syncNewUploads envC6 none [rowC6] =
      .ok ({ synced := 0, errors := e, tgUploads := u }, [rowC6]) :=
  (syncNewUploads_idempotent envC6 none []
    { synced := 1, errors := 0, tgUploads := 1 } [rowC6] rfl).1

/-- Claim C6 counterexample: syncDirectory stores the sync time, not zero, in
lastAccessed — the freshly synced, never-served mapping of the fixture has
lastAccessed 100 and is returned by a later stale scan, refuting the claim. -/
theorem syncNewUploads_lastAccessed_cex :
    syncNewUploads envC6 none [] =
      .ok ({ synced := 1, errors := 0, tgUploads := 1 }, [rowC6]) ∧
    rowC6.last_accessed ≠ 0 ∧
    rowC6 ∈ getStaleEntries [rowC6] 10 1000000 := by
  refine ⟨rfl, by decide, by decide⟩

/-- Claim C6 amended: every mapping created by syncNewUploads has
lastAccessed equal to the sync time and a local cache copy, so once
now - T passes that time the mapping is returned by the stale scan even if
it was never served. -/
theorem syncNewUploads_fresh_lastAccessed
    (env : Env) (dirPath : Option String) (dbs : List Row)
    (r1 : SyncResult) (dbs1 : List Row)
    (h1 : syncNewUploads env dirPath dbs = .ok (r1, dbs1)) :
    ∀ row ∈ dbs1, row ∉ dbs →
      row.last_accessed = env.now ∧ row.has_local_cache = 1 ∧
      ∀ T now2 : Int, env.now < now2 - T → 0 < env.now →
        row ∈ getStaleEntries dbs1 T now2 := by
  by_cases hens : env.ensureDirectory (jsOrS dirPath env.inboxPath) = true
  · simp only [syncNewUploads, hens, if_true, Except.ok.injEq, Prod.mk.injEq] at h1
    obtain ⟨_, hdb⟩ := h1
    intro row hrow hnot
    have hnr := syncFold_new_rows env (jsOrS dirPath env.inboxPath)
      (((env.listDirectory (jsOrS dirPath env.inboxPath)).getD []).filter
        (fun o => o.type == "file"))
      { db := dbs, synced := 0, errors := 0, tgUploads := 0 } row
      (by rw [hdb]; exact hrow)
    rcases hnr with hin | ⟨hla, hlc⟩
    · exact absurd hin hnot
    · refine ⟨hla, hlc, ?_⟩
      intro T now2 hlt hpos
      exact (getStaleEntries_mem dbs1 T now2 row).mpr
        ⟨hrow, hlc, by rw [hla]; exact hlt, by rw [hla]; exact hpos⟩
  · simp only [syncNewUploads, hens, if_false] at h1
    simp at h1

/-- Claim C6 amended witness: the fixture mapping carries the sync time in
lastAccessed, has a cache copy, and shows up in a later stale scan. -/
theorem syncNewUploads_fresh_lastAccessed_witness :
    rowC6.last_accessed = envC6.now ∧ rowC6.has_local_cache = 1 ∧
    rowC6 ∈ getStaleEntries [rowC6] 10 1000000 := by
  have h := syncNewUploads_fresh_lastAccessed envC6 none []
    { synced := 1, errors := 0, tgUploads := 1 } [rowC6] rfl rowC6
    (by decide) (by decide)
  exact ⟨h.1, h.2.1, h.2.2 10 1000000 (by decide) (by decide)⟩

end KVault
